/-
Verification of the WorkLens background-tracking core against its design
specification.

The development shallowly embeds the Python sources:
  * `WorkLens/config.py`   — configuration record, persistence round trip;
  * `WorkLens/analyze.py`  — construction of `AnalysisResult` values;
  * `WorkLens/tracker.py`  — the `FocusTracker` state, its public methods
    (`start`, `update_task`, `stop`, `toggle_break`) and the worker loop
    (`_run_loop`), modelled as a labelled transition system whose actions
    interleave controller calls with the worker's observable steps.

Machine integers are modelled as `Nat`/`Int`; Python floats (token prices,
UTC instants) as `ℚ`; fallible operations return `Option`/`Except`; Python
exceptions that the source swallows are modelled by explicit outcome
parameters.  Instants are epoch seconds (`ℚ`); `datetime.strftime` and the
`%.4f` cost format are implemented over those rationals.
-/
import Mathlib

namespace WorkLens

/-! ## Configuration (`WorkLens/config.py`) -/

/-- The `AppConfig` dataclass of `config.py` with its field defaults. -/
structure AppConfig where
  planned_task : String := ""
  interval_minutes : Int := 10
  image_width : Int := 1280
  api_key_env : String := "OPENAI_API_KEY"
  profession : String := ""
deriving DecidableEq

/-- `DEFAULT_CONFIG = AppConfig()` in `config.py`. -/
def DEFAULT_CONFIG : AppConfig := {}

/-- A persisted `config.json` object: each known key may be present or
absent, mirroring the `{**asdict(DEFAULT_CONFIG), **data}` merge on load. -/
structure StoredConfig where
  planned_task : Option String
  interval_minutes : Option Int
  image_width : Option Int
  api_key_env : Option String
  profession : Option String
deriving DecidableEq

/-- The state of the config file that `load_config` reads: absent, not a
well-formed record of known keys (JSON error or unexpected keyword, both of
which the source catches), or a record. -/
inductive CfgFile
  | missing
  | corrupt
  | record (d : StoredConfig)
deriving DecidableEq

/-- `save_config`: `json.dump(asdict(config), f)` writes every field. -/
def save_config (c : AppConfig) : StoredConfig :=
  { planned_task := some c.planned_task
    interval_minutes := some c.interval_minutes
    image_width := some c.image_width
    api_key_env := some c.api_key_env
    profession := some c.profession }

/-- `load_config`: missing file and parse/merge failures yield
`DEFAULT_CONFIG`; a record is merged over the defaults key by key. -/
def load_config : CfgFile → AppConfig
  | .missing => DEFAULT_CONFIG
  | .corrupt => DEFAULT_CONFIG
  | .record d =>
    { planned_task := d.planned_task.getD DEFAULT_CONFIG.planned_task
      interval_minutes := d.interval_minutes.getD DEFAULT_CONFIG.interval_minutes
      image_width := d.image_width.getD DEFAULT_CONFIG.image_width
      api_key_env := d.api_key_env.getD DEFAULT_CONFIG.api_key_env
      profession := d.profession.getD DEFAULT_CONFIG.profession }

/-! ## Analysis outcomes (`WorkLens/analyze.py`) -/

/-- The `FocusCheck` pydantic model. -/
structure FocusCheck where
  on_task : Bool
  reason : String
deriving DecidableEq

/-- The `AnalysisResult` dataclass. -/
structure AnalysisResult where
  parsed : Option FocusCheck
  input_tokens : Nat
  output_tokens : Nat
  error_message : Option String := none
deriving DecidableEq

/-- What the `client.responses.parse` call does before `analyze_screenshot`
post-processes it: it returns a response (whose `output_parsed` may be
`None` and whose usage fields may be absent/`None`), raises a
`ValidationError`, or raises some other exception. -/
inductive ApiOutcome
  | response (parsed : Option FocusCheck) (usage_in : Option Nat) (usage_out : Option Nat)
  | validationError (msg : String)
  | otherError (msg : String)
deriving DecidableEq

/-- `analyze_screenshot` (`analyze.py` lines 38-91): token counts come from
`getattr(response.usage, ..., 0) or 0`; a `None` parse on a successful call
keeps the reported usage, while either exception path returns zero tokens. -/
def analyze_screenshot : ApiOutcome → AnalysisResult
  | .response p uin uout =>
    match p with
    | none => { parsed := none, input_tokens := uin.getD 0, output_tokens := uout.getD 0,
                error_message := some ("Parsing failed") }
    | some fc => { parsed := some fc, input_tokens := uin.getD 0, output_tokens := uout.getD 0 }
  | .validationError m =>
    { parsed := none, input_tokens := 0, output_tokens := 0,
      error_message := some (("Validation error: ") ++ m) }
  | .otherError m =>
    { parsed := none, input_tokens := 0, output_tokens := 0, error_message := some m }

/-! ## Cost accounting (`FocusTracker._compute_cost`) -/

/-- `_compute_cost`: `$0.15` per million input tokens plus `$0.60` per
million output tokens, recomputed from the two running totals. -/
def compute_cost (input_tokens_total output_tokens_total : Nat) : ℚ :=
  (input_tokens_total : ℚ) / 1000000 * 0.15 + (output_tokens_total : ℚ) / 1000000 * 0.60

/-! ## Timestamp and cost formatting -/

/-- Left-pad a natural number with zeros to the given width. -/
def padLeft0 (w : Nat) (n : Nat) : String :=
  let s := toString n
  (String.mk (List.replicate (w - s.length) '0')) ++ s

/-- Civil date from days since the Unix epoch (proleptic Gregorian). -/
def civilFromDays (z0 : Int) : Int × Nat × Nat :=
  let z := z0 + 719468
  let era : Int := z.ediv 146097
  let doe : Int := z - era * 146097
  let yoe : Int := (doe - doe.ediv 1460 + doe.ediv 36524 - doe.ediv 146096).ediv 365
  let y : Int := yoe + era * 400
  let doy : Int := doe - (365 * yoe + yoe.ediv 4 - yoe.ediv 100)
  let mp : Int := (5 * doy + 2).ediv 153
  let d : Int := doy - (153 * mp + 2).ediv 5 + 1
  let m : Int := mp + (if mp < 10 then 3 else (-9))
  (y + (if m ≤ 2 then 1 else 0), m.toNat, d.toNat)

/-- `strftime('%Y-%m-%dT%H:%M:%SZ')` on a UTC instant given as epoch
seconds (fractional seconds are truncated, as `datetime` prints whole
seconds). -/
def isoFmt (t : ℚ) : String :=
  let z : Int := Int.floor t
  let days : Int := z.ediv 86400
  let secs : Int := z.emod 86400
  let ymd := civilFromDays days
  let hh := (secs.ediv 3600).toNat
  let mi := ((secs.emod 3600).ediv 60).toNat
  let ss := (secs.emod 60).toNat
  padLeft0 4 ymd.1.toNat ++ "-" ++ padLeft0 2 ymd.2.1 ++ "-" ++ padLeft0 2 ymd.2.2
    ++ "T" ++ padLeft0 2 hh ++ ":" ++ padLeft0 2 mi ++ ":" ++ padLeft0 2 ss ++ "Z"

/-- The `f"...{cost:.4f}"` rendering at rational precision: four decimal
places, rounded. -/
def fmt4 (q : ℚ) : String :=
  let n : Int := round (q * 10000)
  let sign := if n < 0 then "-" else ""
  let m : Nat := n.natAbs
  sign ++ toString (m / 10000) ++ "." ++ padLeft0 4 (m % 10000)

/-- Python's `str` on a `bool`. -/
def pyStr (b : Bool) : String := if b then "True" else "False"

/-- Python's `str.strip()`: drop whitespace from both ends. -/
def pyStrip (s : String) : String :=
  String.mk (((s.toList.dropWhile Char.isWhitespace).reverse.dropWhile Char.isWhitespace).reverse)

/-- One activity-log line, as built by the two f-strings in `_run_loop`
(the `verdict` argument is `str(bool)` or the character for unknown). -/
def log_line (iso task verdict reason : String) (cost : ℚ) : String :=
  iso ++ " | planned=\"" ++ task ++ "\" | on_task=" ++ verdict
    ++ " | reason=\"" ++ reason ++ "\" | cost=$" ++ fmt4 cost

/-! ## `_append_log` (tracker.py lines 17-23) -/

/-- Which of `_append_log`'s operations fail, if any. -/
inductive IoMode
  | ok
  | mkdirFails
  | writeFails
deriving DecidableEq

/-- The body of the `try:` block: `os.makedirs` then the append, either of
which may raise. -/
def append_log_attempt : IoMode → List String → String → Except String (List String)
  | .ok, log, line => .ok (log ++ [line])
  | .mkdirFails, _, _ => .error ("makedirs failed")
  | .writeFails, _, _ => .error ("open or write failed")

/-- `_append_log`: the bare `except Exception: pass` swallows any failure,
leaving the log unchanged; the function always returns normally. -/
def append_log (io : IoMode) (log : List String) (line : String) : List String :=
  match append_log_attempt io log line with
  | .ok l => l
  | .error _ => log

/-! ## `_sleep_interruptible` (tracker.py lines 159-168) -/

/-- How one call to `_sleep_interruptible` ended. -/
inductive SleepOutcome
  | stopped
  | woken
  | timedOut
deriving DecidableEq

/-- Result of a sleep: how it ended, the wake flag after the call (absent
external re-sets), and how many poll iterations ran before returning. -/
structure SleepResult where
  outcome : SleepOutcome
  wakeAfter : Bool
  polls : Nat
deriving DecidableEq

/-- The polling loop of `_sleep_interruptible`: `fuel` is the number of
`time.time() < end` iterations the requested duration allows (one per
≤ 0.25 s slice), `i` the index of the current poll.  Each iteration checks
the stop event first, then the wake event (clearing it on that path), and
otherwise sleeps one slice.  `stop`/`wake` give the externally controlled
flag values observed at each poll. -/
def sleepRun (stop wake : Nat → Bool) : Nat → Nat → SleepResult
  | 0, i => { outcome := .timedOut, wakeAfter := wake i, polls := 0 }
  | n + 1, i =>
    if stop i then { outcome := .stopped, wakeAfter := wake i, polls := 0 }
    else if wake i then { outcome := .woken, wakeAfter := false, polls := 0 }
    else
      let r := sleepRun stop wake n (i + 1)
      { outcome := r.outcome, wakeAfter := r.wakeAfter, polls := r.polls + 1 }

/-! ## `_emit_ui` (tracker.py lines 147-153) -/

/-- Snapshot payload: the dict keys `_emit_ui` is called with across
`tracker.py`; `none` means the key is absent from that payload. -/
structure NotifyReq where
  ntype : String
  task : String
  reason : String
deriving DecidableEq

structure UiPayload where
  running : Option Bool := none
  status : Option String := none
  on_task : Option (Option Bool) := none
  reason : Option String := none
  cost : Option ℚ := none
  last_check : Option String := none
  break_active : Option Bool := none
  break_remaining : Option Int := none
  notify : Option (Option NotifyReq) := none
deriving DecidableEq

/-- `_emit_ui`: with no registered callback it does nothing; otherwise it
invokes the callback and swallows any exception (`except Exception: pass`).
Returns whether the method itself completed without an exception escaping,
paired with whether the callback was invoked. -/
def emit_ui (cb : Option (UiPayload → Except String Unit)) (p : UiPayload) :
    Except String Unit × Bool :=
  match cb with
  | none => (.ok (), false)
  | some f =>
    match f p with
    | .ok _ => (.ok (), true)
    | .error _ => (.ok (), true)

/-! ## The tracker as a labelled transition system (tracker.py lines 26-255)

Controller calls (`start`, `update_task`, `stop`, `toggle_break`) and the
worker thread's observable steps interleave; each `Action` below is one
such step.  `stop()` is split into the locked signalling section and the
return after `join(timeout=2.0)`, because the worker runs in between.  The
worker's program counter records where `_run_loop` is: about to test the
outer `while`, inside the inner break loop, inside the blocking
capture/analyze call, or inside the end-of-cycle interval sleep.  Only the
capture/analyze call can block for longer than the 2-second join bound
(every sleep polls its events at least every 0.25 s), so the timed-out
join is modelled as available exactly when the worker is capturing. -/

/-- Where the worker thread is in `_run_loop`; `noThread` also covers the
freshly constructed tracker whose `_thread` is `None`. -/
inductive WorkerPc
  | noThread
  | atLoopTop
  | inBreakLoop
  | capturing
  | sleeping
  | exited
deriving DecidableEq

/-- The `FocusTracker` instance state (`__init__`, lines 27-48), plus the
worker program counter and a ghost count of live worker threads. -/
structure FocusTracker where
  pc : WorkerPc
  stop_event : Bool
  wake_event : Bool
  cb_set : Bool
  config : AppConfig
  planned_task : String
  interval_minutes : Int
  profession : String
  input_tokens_total : Nat
  output_tokens_total : Nat
  cost_usd : ℚ
  last_status : Option Bool
  last_reason : String
  last_check_iso : Option String
  break_active : Bool
  break_end_time_utc : Option ℚ
  liveThreads : Nat
deriving DecidableEq

/-- `FocusTracker.__init__`, with `self.config = load_config()` supplied as
a parameter (its value depends on the config file). -/
def initState (cfg : AppConfig) : FocusTracker :=
  { pc := .noThread, stop_event := false, wake_event := false, cb_set := false,
    config := cfg, planned_task := cfg.planned_task,
    interval_minutes := cfg.interval_minutes, profession := cfg.profession,
    input_tokens_total := 0, output_tokens_total := 0, cost_usd := 0,
    last_status := none, last_reason := "", last_check_iso := none,
    break_active := false, break_end_time_utc := none, liveThreads := 0 }

/-- `self._thread and self._thread.is_alive()`. -/
def threadAlive (s : FocusTracker) : Bool :=
  match s.pc with
  | .noThread => false
  | .exited => false
  | _ => true

/-- `{s with cost_usd := self._compute_cost()}` — recomputation from the
current totals, as done after every analysis. -/
def recompute_cost (s : FocusTracker) : FocusTracker :=
  { s with cost_usd := compute_cost s.input_tokens_total s.output_tokens_total }

/-- Observable events of a step. -/
inductive Ev
  | emitW (p : UiPayload)
  | emitC (p : UiPayload)
  | log (line : String)
  | spawn
  | saveCfg (c : AppConfig)
deriving DecidableEq

/-- The `_emit_ui(...)` call sites: an event is recorded when a callback is
registered (`worker` tells which thread ran the call). -/
def uiEv (s : FocusTracker) (worker : Bool) (p : UiPayload) : List Ev :=
  if s.cb_set then [if worker then Ev.emitW p else Ev.emitC p] else []

/-- The `AppConfig(...)` literal that `start`/`update_task` persist. -/
def cfgOf (s : FocusTracker) : AppConfig :=
  { planned_task := s.planned_task, interval_minutes := s.interval_minutes,
    image_width := s.config.image_width, api_key_env := s.config.api_key_env,
    profession := s.profession }

/-- One interleaved step: a controller call or an observable worker step.
The `now` parameters stand for the `datetime.now(timezone.utc)` reads. -/
inductive Action
  | startCall (task : String) (interval : Int) (profession : String)
  | updateTask (task : Option String) (interval : Option (Option Int)) (profession : Option String)
  | stopBegin
  | stopEnd
  | toggleBreak (now : ℚ)
  | loopCheck
  | breakTick (now : ℚ)
  | captureRaise (msg : String)
  | captureOk (r : AnalysisResult) (now : ℚ)
  | sleepStop
  | sleepWake
  | sleepFull

/-- Actions executed by the worker thread. -/
def isWorkerAction : Action → Bool
  | .loopCheck => true
  | .breakTick _ => true
  | .captureRaise _ => true
  | .captureOk _ _ => true
  | .sleepStop => true
  | .sleepWake => true
  | .sleepFull => true
  | _ => false

/-- Whether the action is a `start(...)` call. -/
def isStartCall : Action → Bool
  | .startCall _ _ _ => true
  | _ => false

/-- The snapshot emitted at the end of a fresh `start` (lines 90-99). -/
def startedPayload (s : FocusTracker) : UiPayload :=
  { running := some true, status := some ("Started"), on_task := some none,
    reason := some "", cost := some s.cost_usd, last_check := some "",
    break_active := some false, break_remaining := some 0 }

/-- `FocusTracker.start` (lines 51-99).  With a live worker it only updates
the runtime parameters, persists them, and wakes the loop; otherwise it
resets the signals and break state, persists, spawns the worker, and emits
the `Started` snapshot. -/
def start_step (t : String) (i : Int) (p : String) (s : FocusTracker) :
    FocusTracker × List Ev :=
  if threadAlive s then
    let s1 := { s with planned_task := pyStrip t, interval_minutes := max 1 i,
                       profession := pyStrip p, cb_set := true, wake_event := true }
    (s1, [Ev.saveCfg (cfgOf s1)])
  else
    let s1 := { s with planned_task := pyStrip t, interval_minutes := max 1 i,
                       profession := pyStrip p, cb_set := true,
                       stop_event := false, wake_event := false,
                       break_active := false, break_end_time_utc := none,
                       pc := .atLoopTop, liveThreads := s.liveThreads + 1 }
    (s1, [Ev.saveCfg (cfgOf s1), Ev.spawn] ++ uiEv s1 false (startedPayload s1))

/-- `FocusTracker.update_task` (lines 101-123): merge the supplied fields
(`some none` for the interval models an `int()` that raised and was
swallowed), persist, wake, emit `Updated`. -/
def update_step (t : Option String) (i : Option (Option Int)) (p : Option String)
    (s : FocusTracker) : FocusTracker × List Ev :=
  let s1 := match t with
    | some t0 => { s with planned_task := pyStrip t0 }
    | none => s
  let s2 := match i with
    | some (some i0) => { s1 with interval_minutes := max 1 i0 }
    | some none => s1
    | none => s1
  let s3 := match p with
    | some p0 => { s2 with profession := pyStrip p0 }
    | none => s2
  let s4 := { s3 with wake_event := true }
  (s4, [Ev.saveCfg (cfgOf s3)] ++ uiEv s4 false { status := some ("Updated") })

/-- `FocusTracker.toggle_break` (lines 133-144). -/
def toggle_step (now : ℚ) (s : FocusTracker) : FocusTracker × List Ev :=
  if threadAlive s then
    if s.break_active then
      ({ s with break_active := false, break_end_time_utc := none, wake_event := true }, [])
    else
      ({ s with break_active := true, break_end_time_utc := some (now + 3600),
                wake_event := true }, [])
  else (s, [])

/-- The locked half of `FocusTracker.stop` (lines 126-128). -/
def stop_begin_step (s : FocusTracker) : FocusTracker × List Ev :=
  ({ s with stop_event := true, wake_event := true }, [])

/-- The return of `FocusTracker.stop` after `join(timeout=2.0)` (lines
129-131): available once the worker has exited (join succeeded), when no
thread was ever started, or when the worker is blocked in capture/analyze
(join timed out and the thread is abandoned).  Emits `Stopped`. -/
def stop_end_step (s : FocusTracker) : FocusTracker × List Ev :=
  (s, uiEv s false { running := some false, status := some ("Stopped") })

/-- One iteration of the outer `while not self._stop_event.is_set()` test
plus the dispatch at lines 171-193. -/
def loop_check_step (s : FocusTracker) : FocusTracker × List Ev :=
  if s.stop_event then ({ s with pc := .exited, liveThreads := s.liveThreads - 1 }, [])
  else if s.break_active then ({ s with pc := .inBreakLoop }, [])
  else ({ s with pc := .capturing }, [])

/-- The `On break` tick snapshot (lines 182-186). -/
def breakPayload (rem : Int) : UiPayload :=
  { status := some ("On break"), break_active := some true, break_remaining := some rem }

/-- One iteration of the inner break loop (lines 174-190), including its
1-second interruptible sleep.  `remaining_s = max(0, int(...))`; a falsy
`break_end_time_utc` skips both the countdown and the clearing. -/
def break_tick_step (now : ℚ) (s : FocusTracker) : FocusTracker × List Ev :=
  if s.break_active = false ∨ s.stop_event then ({ s with pc := .atLoopTop }, [])
  else
    match s.break_end_time_utc with
    | some e =>
      let rem : Int := max 0 (Int.floor (e - now))
      if rem ≤ 0 then
        ({ s with break_active := false, break_end_time_utc := none, pc := .atLoopTop }, [])
      else
        ({ s with wake_event := false }, uiEv s true (breakPayload rem))
    | none =>
      ({ s with wake_event := false }, uiEv s true (breakPayload 0))

/-- Capture or analyze raised (lines 196-203): emit the paused snapshot and
fall into the interval sleep. -/
def capture_raise_step (msg : String) (s : FocusTracker) : FocusTracker × List Ev :=
  ({ s with pc := .sleeping },
   uiEv s true { status := some ("Paused (capture/analysis error)"),
                 on_task := some none, reason := some msg })

/-- `analyze_screenshot` returned (lines 205-254): accumulate the result's
token counts, recompute the cost, then branch on `result.parsed`.  The
failure branch takes `result.error_message or "Parsing failed"` (Python
`or`, so an empty message also falls back). -/
def capture_ok_step (r : AnalysisResult) (now : ℚ) (s : FocusTracker) :
    FocusTracker × List Ev :=
  let inT := s.input_tokens_total + r.input_tokens
  let outT := s.output_tokens_total + r.output_tokens
  let cost := compute_cost inT outT
  let iso := isoFmt now
  match r.parsed with
  | none =>
    let reason := match r.error_message with
      | some m => if m = "" then "Parsing failed" else m
      | none => "Parsing failed"
    ({ s with input_tokens_total := inT, output_tokens_total := outT, cost_usd := cost,
              last_status := none, last_reason := reason, last_check_iso := some iso,
              pc := .sleeping },
     [Ev.log (log_line iso s.planned_task "?" reason cost)]
       ++ uiEv s true { status := some ("Paused (API error)"), on_task := some none,
                        reason := some reason, last_check := some iso, cost := some cost })
  | some fc =>
    let notif : Option NotifyReq :=
      if fc.on_task then none
      else some { ntype := "off_task", task := s.planned_task, reason := fc.reason }
    ({ s with input_tokens_total := inT, output_tokens_total := outT, cost_usd := cost,
              last_status := some fc.on_task, last_reason := fc.reason,
              last_check_iso := some iso, pc := .sleeping },
     [Ev.log (log_line iso s.planned_task (pyStr fc.on_task) fc.reason cost)]
       ++ uiEv s true { status := some (if fc.on_task then "On task" else "Off task"),
                        on_task := some (some fc.on_task), reason := some fc.reason,
                        last_check := some iso, cost := some cost,
                        break_active := some false, break_remaining := some 0,
                        notify := some notif })

/-- The guarded step function of the system.  `none` means the action is
not enabled in the given state (worker steps require the matching program
counter; the end-of-cycle sleep returns by whichever of its three paths its
events select, mirroring `sleepRun`). -/
def step : Action → FocusTracker → Option (FocusTracker × List Ev)
  | .startCall t i p, s => some (start_step t i p s)
  | .updateTask t i p, s => some (update_step t i p s)
  | .stopBegin, s => some (stop_begin_step s)
  | .stopEnd, s =>
    if s.stop_event ∧ (s.pc = .noThread ∨ s.pc = .exited ∨ s.pc = .capturing) then
      some (stop_end_step s)
    else none
  | .toggleBreak now, s => some (toggle_step now s)
  | .loopCheck, s => if s.pc = .atLoopTop then some (loop_check_step s) else none
  | .breakTick now, s => if s.pc = .inBreakLoop then some (break_tick_step now s) else none
  | .captureRaise msg, s =>
    if s.pc = .capturing then some (capture_raise_step msg s) else none
  | .captureOk r now, s =>
    if s.pc = .capturing then some (capture_ok_step r now s) else none
  | .sleepStop, s =>
    if s.pc = .sleeping ∧ s.stop_event then some ({ s with pc := .atLoopTop }, []) else none
  | .sleepWake, s =>
    if s.pc = .sleeping ∧ s.stop_event = false ∧ s.wake_event then
      some ({ s with wake_event := false, pc := .atLoopTop }, [])
    else none
  | .sleepFull, s =>
    if s.pc = .sleeping ∧ s.stop_event = false ∧ s.wake_event = false then
      some ({ s with pc := .atLoopTop }, [])
    else none

/-- Run a concrete list of actions from a state, failing if any action is
not enabled. -/
def reach (s : FocusTracker) : List Action → Option FocusTracker
  | [] => some s
  | a :: rest =>
    match step a s with
    | none => none
    | some (s2, _) => reach s2 rest

/-- States reachable from a freshly constructed tracker by any
interleaving of public methods and worker steps. -/
inductive Reachable : FocusTracker → Prop
  | init (cfg : AppConfig) : Reachable (initState cfg)
  | next {s s2 : FocusTracker} {evs : List Ev} (a : Action) :
      Reachable s → step a s = some (s2, evs) → Reachable s2

/-- Log lines among a step's events. -/
def logsOf (evs : List Ev) : List String :=
  evs.filterMap fun e =>
    match e with
    | .log l => some l
    | _ => none

/-- Whether any event is a worker-thread snapshot emission. -/
def hasEmitW (evs : List Ev) : Bool :=
  evs.any fun e =>
    match e with
    | .emitW _ => true
    | _ => false

/-! ## Concrete states used by witnesses and counterexamples -/

/-- A tracker freshly started with task `"t"`, interval 1 and no
profession: the result of `start("t", 1, cb)` on a new instance. -/
def sStarted : FocusTracker :=
  { pc := .atLoopTop, stop_event := false, wake_event := false, cb_set := true,
    config := {}, planned_task := "t", interval_minutes := 1, profession := "",
    input_tokens_total := 0, output_tokens_total := 0, cost_usd := 0,
    last_status := none, last_reason := "", last_check_iso := none,
    break_active := false, break_end_time_utc := none, liveThreads := 1 }

/-- `sStarted` after `toggle_break()` at instant 0: on break until 3600
(the deadline is kept as the unevaluated `0 + 3600` the step produces). -/
def sOnBreak : FocusTracker :=
  { sStarted with break_active := true, break_end_time_utc := some (0 + 3600),
                  wake_event := true }

/-- `sOnBreak` once the worker has entered the inner break loop. -/
def sInBreakLoop : FocusTracker :=
  { sOnBreak with pc := .inBreakLoop }

/-- `sStarted` once the worker is inside the capture/analyze call. -/
def sCapturing : FocusTracker :=
  { sStarted with pc := .capturing }

/-- `sCapturing` after the locked half of `stop()` (both signals set) —
the worker is still blocked in capture/analyze. -/
def sCapStop : FocusTracker :=
  { sCapturing with stop_event := true, wake_event := true }

/-! ## Invariants -/

/-- `breakActive` is true exactly when a break deadline is set. -/
def brInv (s : FocusTracker) : Prop :=
  s.break_active = s.break_end_time_utc.isSome

/-- The ghost live-thread count matches the liveness of the (unique)
registered worker: at most one worker thread exists. -/
def liveInv (s : FocusTracker) : Prop :=
  s.liveThreads = if threadAlive s = true then 1 else 0

/-- The conjunction of the tracker's structural invariants. -/
def Inv (s : FocusTracker) : Prop := brInv s ∧ liveInv s

/-! ## Theorems -/

/-- Every step of the system preserves the structural invariants. -/
theorem step_inv (a : Action) (s : FocusTracker) (p : FocusTracker × List Ev)
    (h : step a s = some p) (hi : Inv s) : Inv p.1 := by
  obtain ⟨hb, hl⟩ := hi
  cases a with
  | startCall t i p0 =>
    simp only [step, start_step] at h
    split at h
    · injection h with h1; subst h1
      exact ⟨hb, hl⟩
    · injection h with h1; subst h1
      refine ⟨by simp [brInv], ?_⟩
      have ha : threadAlive s = false := by
        rename_i hcond
        simpa using hcond
      simp only [liveInv, threadAlive] at hl ⊢
      rw [threadAlive] at ha
      simp only [ha] at hl
      simp at hl
      simp [hl]
  | updateTask t i p0 =>
    rcases t with _ | t0 <;> rcases i with _ | (_ | i0) <;> rcases p0 with _ | q0 <;>
      (simp only [step, update_step] at h; injection h with h1; subst h1; exact ⟨hb, hl⟩)
  | stopBegin =>
    simp only [step, stop_begin_step] at h
    injection h with h1; subst h1
    exact ⟨hb, hl⟩
  | stopEnd =>
    simp only [step, stop_end_step] at h
    split at h
    · injection h with h1; subst h1
      exact ⟨hb, hl⟩
    · exact absurd h (by simp)
  | toggleBreak now =>
    simp only [step, toggle_step] at h
    split at h
    · split at h
      · injection h with h1; subst h1
        exact ⟨by simp [brInv], hl⟩
      · injection h with h1; subst h1
        exact ⟨by simp [brInv], hl⟩
    · injection h with h1; subst h1
      exact ⟨hb, hl⟩
  | loopCheck =>
    simp only [step, loop_check_step] at h
    split at h
    case isTrue hpc =>
      have halive : threadAlive s = true := by rw [threadAlive, hpc]
      have hone : s.liveThreads = 1 := by
        rw [liveInv, halive] at hl; simpa using hl
      split at h
      · injection h with h1; subst h1
        exact ⟨hb, by simp [liveInv, threadAlive, hone]⟩
      · split at h <;>
          (injection h with h1; subst h1; exact ⟨hb, by simp [liveInv, threadAlive, hone]⟩)
    case isFalse hpc => exact absurd h (by simp)
  | breakTick now =>
    simp only [step, break_tick_step] at h
    split at h
    case isTrue hpc =>
      have halive : threadAlive s = true := by rw [threadAlive, hpc]
      have hone : s.liveThreads = 1 := by
        rw [liveInv, halive] at hl; simpa using hl
      split at h
      · injection h with h1; subst h1
        exact ⟨hb, by simp [liveInv, threadAlive, hone]⟩
      · split at h
        · split at h
          · injection h with h1; subst h1
            exact ⟨by simp [brInv], by simp [liveInv, threadAlive, hone]⟩
          · injection h with h1; subst h1
            exact ⟨hb, by simp [liveInv, threadAlive, hone, hpc]⟩
        · injection h with h1; subst h1
          exact ⟨hb, by simp [liveInv, threadAlive, hone, hpc]⟩
    case isFalse hpc => exact absurd h (by simp)
  | captureRaise msg =>
    simp only [step, capture_raise_step] at h
    split at h
    case isTrue hpc =>
      have halive : threadAlive s = true := by rw [threadAlive, hpc]
      have hone : s.liveThreads = 1 := by
        rw [liveInv, halive] at hl; simpa using hl
      injection h with h1; subst h1
      exact ⟨hb, by simp [liveInv, threadAlive, hone]⟩
    case isFalse hpc => exact absurd h (by simp)
  | captureOk r now =>
    simp only [step, capture_ok_step] at h
    split at h
    case isTrue hpc =>
      have halive : threadAlive s = true := by rw [threadAlive, hpc]
      have hone : s.liveThreads = 1 := by
        rw [liveInv, halive] at hl; simpa using hl
      split at h <;>
        (injection h with h1; subst h1
         exact ⟨hb, by simp [liveInv, threadAlive, hone]⟩)
    case isFalse hpc => exact absurd h (by simp)
  | sleepStop =>
    simp only [step] at h
    split at h
    case isTrue hpc =>
      have halive : threadAlive s = true := by rw [threadAlive, hpc.1]
      have hone : s.liveThreads = 1 := by
        rw [liveInv, halive] at hl; simpa using hl
      injection h with h1; subst h1
      exact ⟨hb, by simp [liveInv, threadAlive, hone]⟩
    case isFalse hpc => exact absurd h (by simp)
  | sleepWake =>
    simp only [step] at h
    split at h
    case isTrue hpc =>
      have halive : threadAlive s = true := by rw [threadAlive, hpc.1]
      have hone : s.liveThreads = 1 := by
        rw [liveInv, halive] at hl; simpa using hl
      injection h with h1; subst h1
      exact ⟨hb, by simp [liveInv, threadAlive, hone]⟩
    case isFalse hpc => exact absurd h (by simp)
  | sleepFull =>
    simp only [step] at h
    split at h
    case isTrue hpc =>
      have halive : threadAlive s = true := by rw [threadAlive, hpc.1]
      have hone : s.liveThreads = 1 := by
        rw [liveInv, halive] at hl; simpa using hl
      injection h with h1; subst h1
      exact ⟨hb, by simp [liveInv, threadAlive, hone]⟩
    case isFalse hpc => exact absurd h (by simp)

/-- The invariants hold in every reachable state. -/
theorem reachable_inv (s : FocusTracker) (h : Reachable s) : Inv s := by
  induction h with
  | init cfg =>
    refine ⟨rfl, ?_⟩
    simp [liveInv, threadAlive, initState]
  | next a hr hstep ih => exact step_inv a _ _ hstep ih

/-- Running a concrete action list from a reachable state reaches a
reachable state. -/
theorem reach_reachable (acts : List Action) :
    ∀ (s s2 : FocusTracker), Reachable s → reach s acts = some s2 → Reachable s2 := by
  induction acts with
  | nil =>
    intro s s2 hr h
    simp only [reach, Option.some.injEq] at h
    exact h ▸ hr
  | cons a rest ih =>
    intro s s2 hr h
    simp only [reach] at h
    cases hs : step a s with
    | none => rw [hs] at h; exact absurd h (by simp)
    | some q =>
      obtain ⟨s1, evs⟩ := q
      rw [hs] at h
      exact ih s1 s2 (Reachable.next a hr hs) h

/-- C3: `_compute_cost` is a pure function of the two token totals — it
returns exactly `input/1M · 0.15 + output/1M · 0.60`, the value is
non-negative, and recomputing it any number of times with unchanged totals
yields the same value. -/
theorem compute_cost_pure_idempotent (i o : Nat) (s : FocusTracker) (n : Nat) :
    compute_cost i o = (i : ℚ) / 1000000 * 0.15 + (o : ℚ) / 1000000 * 0.60
    ∧ 0 ≤ compute_cost i o
    ∧ (recompute_cost^[n] (recompute_cost s)).cost_usd = (recompute_cost s).cost_usd := by
  refine ⟨rfl, ?_, ?_⟩
  · unfold compute_cost
    positivity
  · induction n with
    | zero => rfl
    | succ k ih =>
      rw [Function.iterate_succ_apply]
      have hfix : recompute_cost (recompute_cost s) = recompute_cost s := rfl
      rw [hfix]
      exact ih

/-- C7: `load` after `save` reproduces every field of any `AppConfig`
(including blank profession and interval 1), and a stored record's missing
fields are filled with their defaults on load. -/
theorem config_roundtrip_defaults (cfg : AppConfig) (d : StoredConfig) :
    load_config (.record (save_config cfg)) = cfg
    ∧ load_config (.record ⟨none, none, none, none, none⟩) = DEFAULT_CONFIG
    ∧ (load_config (.record d)).planned_task = d.planned_task.getD DEFAULT_CONFIG.planned_task
    ∧ (load_config (.record d)).interval_minutes
        = d.interval_minutes.getD DEFAULT_CONFIG.interval_minutes
    ∧ (load_config (.record d)).image_width = d.image_width.getD DEFAULT_CONFIG.image_width
    ∧ (load_config (.record d)).api_key_env = d.api_key_env.getD DEFAULT_CONFIG.api_key_env
    ∧ (load_config (.record d)).profession = d.profession.getD DEFAULT_CONFIG.profession :=
  ⟨rfl, rfl, rfl, rfl, rfl, rfl, rfl⟩

/-- C10: `_emit_ui` returns normally for every callback and payload — a
raising observer callback is swallowed — and with no registered callback it
invokes nothing. -/
theorem emit_ui_never_raises (cb : Option (UiPayload → Except String Unit)) (p : UiPayload) :
    (emit_ui cb p).1 = .ok () ∧ emit_ui none p = (.ok (), false) := by
  refine ⟨?_, rfl⟩
  cases cb with
  | none => rfl
  | some f =>
    cases hf : f p with
    | ok u => simp [emit_ui, hf]
    | error e => simp [emit_ui, hf]

/-- C8: every `start` or `update_task` call supplying an integer interval
value `i` leaves `interval_minutes = max 1 i`, hence `interval_minutes ≥ 1`
after every such mutation. -/
theorem interval_clamped (s : FocusTracker) (t p0 : String) (i : Int)
    (pt pf : Option String) (s1 s2 : FocusTracker) (evs1 evs2 : List Ev)
    (h1 : step (.startCall t i p0) s = some (s1, evs1))
    (h2 : step (.updateTask pt (some (some i)) pf) s = some (s2, evs2)) :
    s1.interval_minutes = max 1 i ∧ 1 ≤ s1.interval_minutes
    ∧ s2.interval_minutes = max 1 i ∧ 1 ≤ s2.interval_minutes := by
  have e1 : s1.interval_minutes = max 1 i := by
    simp only [step, start_step] at h1
    split at h1 <;> (injection h1 with h0; injection h0 with hA hB; subst hA; rfl)
  have e2 : s2.interval_minutes = max 1 i := by
    rcases pt with _ | t0 <;> rcases pf with _ | q0 <;>
      (simp only [step, update_step] at h2; injection h2 with h0;
       injection h0 with hA hB; subst hA; rfl)
  exact ⟨e1, e1 ▸ le_max_left 1 i, e2, e2 ▸ le_max_left 1 i⟩

/-- Witness for `interval_clamped` at a fresh tracker and a negative
supplied interval. -/
theorem interval_clamped_witness :
    (start_step "a" (-5) "" (initState {})).1.interval_minutes = max 1 (-5)
    ∧ 1 ≤ (start_step "a" (-5) "" (initState {})).1.interval_minutes
    ∧ (update_step none (some (some (-5))) none (initState {})).1.interval_minutes = max 1 (-5)
    ∧ 1 ≤ (update_step none (some (some (-5))) none (initState {})).1.interval_minutes :=
  interval_clamped (initState {}) "a" "" (-5) none none
    (start_step "a" (-5) "" (initState {})).1
    (update_step none (some (some (-5))) none (initState {})).1
    (start_step "a" (-5) "" (initState {})).2
    (update_step none (some (some (-5))) none (initState {})).2
    rfl rfl

/-- `_sleep_interruptible` returns early: if the stop or wake flag is set
at some poll within the duration, the loop does not time out and returns by
that poll. -/
theorem sleepRun_early (stop wake : Nat → Bool) :
    ∀ (fuel i j : Nat), j < fuel → (stop (i + j) = true ∨ wake (i + j) = true) →
      (sleepRun stop wake fuel i).outcome ≠ SleepOutcome.timedOut
      ∧ (sleepRun stop wake fuel i).polls ≤ j := by
  intro fuel
  induction fuel with
  | zero => intro i j hj _; exact absurd hj (Nat.not_lt_zero j)
  | succ n ih =>
    intro i j hj hflag
    by_cases hs : stop i = true
    · simp [sleepRun, hs]
    · by_cases hw : wake i = true
      · simp [sleepRun, hs, hw]
      · have hs' : stop i = false := by simpa using hs
        have hw' : wake i = false := by simpa using hw
        have hj0 : j ≠ 0 := by
          rintro rfl
          rw [Nat.add_zero] at hflag
          rcases hflag with hf | hf
          · rw [hs'] at hf; exact Bool.false_ne_true hf
          · rw [hw'] at hf; exact Bool.false_ne_true hf
        obtain ⟨j', rfl⟩ := Nat.exists_eq_succ_of_ne_zero hj0
        have hidx : i + (j' + 1) = i + 1 + j' := by omega
        rw [hidx] at hflag
        have hrec := ih (i + 1) j' (Nat.lt_of_succ_lt_succ hj) hflag
        simp only [sleepRun, hs', hw']
        simp only [Bool.false_eq_true, if_false]
        exact ⟨hrec.1, Nat.succ_le_succ hrec.2⟩

/-- A wake-triggered early return clears the wake flag. -/
theorem sleepRun_woken (stop wake : Nat → Bool) :
    ∀ (fuel i : Nat), (sleepRun stop wake fuel i).outcome = SleepOutcome.woken →
      (sleepRun stop wake fuel i).wakeAfter = false := by
  intro fuel
  induction fuel with
  | zero => intro i h; exact absurd h (by simp [sleepRun])
  | succ n ih =>
    intro i h
    by_cases hs : stop i = true
    · rw [sleepRun] at h; simp [hs] at h
    · by_cases hw : wake i = true
      · simp [sleepRun, hs, hw]
      · have hs' : stop i = false := by simpa using hs
        have hw' : wake i = false := by simpa using hw
        rw [sleepRun] at h ⊢
        simp only [hs', hw', Bool.false_eq_true, if_false] at h ⊢
        exact ih (i + 1) h

/-- A stop-triggered early return leaves the wake flag exactly as it was
at the returning poll (in particular, a set wake flag is not cleared). -/
theorem sleepRun_stopped (stop wake : Nat → Bool) :
    ∀ (fuel i : Nat), (sleepRun stop wake fuel i).outcome = SleepOutcome.stopped →
      (sleepRun stop wake fuel i).wakeAfter = wake (i + (sleepRun stop wake fuel i).polls) := by
  intro fuel
  induction fuel with
  | zero => intro i h; exact absurd h (by simp [sleepRun])
  | succ n ih =>
    intro i h
    by_cases hs : stop i = true
    · simp [sleepRun, hs]
    · by_cases hw : wake i = true
      · rw [sleepRun] at h
        have hs' : stop i = false := by simpa using hs
        simp [hs', hw] at h
      · have hs' : stop i = false := by simpa using hs
        have hw' : wake i = false := by simpa using hw
        rw [sleepRun] at h ⊢
        simp only [hs', hw', Bool.false_eq_true, if_false] at h ⊢
        have := ih (i + 1) h
        rw [this]
        congr 1
        omega

/-- C2 (amended): whenever the stop or the wake signal is set at some poll
before the duration elapses, `_sleep_interruptible` returns early (by that
poll, not after the full duration); a wake-triggered early return clears
the wake signal, but the stop check comes first and a stop-triggered early
return leaves the wake signal exactly as it was at the returning poll. -/
theorem sleep_interruptible_amended (stop wake : Nat → Bool) (fuel i j : Nat)
    (hj : j < fuel) (hflag : stop (i + j) = true ∨ wake (i + j) = true) :
    (sleepRun stop wake fuel i).outcome ≠ SleepOutcome.timedOut
    ∧ (sleepRun stop wake fuel i).polls ≤ j
    ∧ ((sleepRun stop wake fuel i).outcome = SleepOutcome.woken →
        (sleepRun stop wake fuel i).wakeAfter = false)
    ∧ ((sleepRun stop wake fuel i).outcome = SleepOutcome.stopped →
        (sleepRun stop wake fuel i).wakeAfter
          = wake (i + (sleepRun stop wake fuel i).polls)) :=
  ⟨(sleepRun_early stop wake fuel i j hj hflag).1,
   (sleepRun_early stop wake fuel i j hj hflag).2,
   sleepRun_woken stop wake fuel i,
   sleepRun_stopped stop wake fuel i⟩

/-- Witness for `sleep_interruptible_amended`: the wake flag goes up at
poll 2 of a 5-poll sleep, which returns woken by poll 2 with the flag
cleared. -/
theorem sleep_interruptible_amended_witness :
    (sleepRun (fun _ => false) (fun n => decide (n = 2)) 5 0).outcome ≠ SleepOutcome.timedOut
    ∧ (sleepRun (fun _ => false) (fun n => decide (n = 2)) 5 0).polls ≤ 2
    ∧ ((sleepRun (fun _ => false) (fun n => decide (n = 2)) 5 0).outcome = SleepOutcome.woken →
        (sleepRun (fun _ => false) (fun n => decide (n = 2)) 5 0).wakeAfter = false)
    ∧ ((sleepRun (fun _ => false) (fun n => decide (n = 2)) 5 0).outcome = SleepOutcome.stopped →
        (sleepRun (fun _ => false) (fun n => decide (n = 2)) 5 0).wakeAfter
          = (fun n => decide (n = 2))
              (0 + (sleepRun (fun _ => false) (fun n => decide (n = 2)) 5 0).polls)) :=
  sleep_interruptible_amended (fun _ => false) (fun n => decide (n = 2)) 5 0 2
    (by decide) (Or.inr (by decide))

/-- C2 is refuted as stated: with both signals set (exactly what `stop()`
does), `_sleep_interruptible` returns early via the stop branch and the
wake signal is NOT cleared on that early return. -/
theorem sleep_interruptible_counterexample :
    (sleepRun (fun _ => true) (fun _ => true) 4 0).outcome ≠ SleepOutcome.timedOut
    ∧ (sleepRun (fun _ => true) (fun _ => true) 4 0).wakeAfter = true := by
  exact ⟨by decide, by decide⟩

/-- C4: in every reachable state, `break_active` is true iff
`break_end_time_utc` is set; `toggle_break` on a running tracker not on
break sets `break_active`, sets the deadline to now + 60 minutes and
signals wake; `toggle_break` on a running tracker on break clears both
fields; and once the deadline has elapsed, the worker's break tick clears
both fields in the very step that leaves the break state. -/
theorem break_invariant (s : FocusTracker) (h : Reachable s) (now e : ℚ) :
    (s.break_active = true ↔ s.break_end_time_utc ≠ none)
    ∧ (threadAlive s = true → s.break_active = false →
        step (.toggleBreak now) s
          = some ({ s with break_active := true,
                           break_end_time_utc := some (now + 3600),
                           wake_event := true }, []))
    ∧ (threadAlive s = true → s.break_active = true →
        step (.toggleBreak now) s
          = some ({ s with break_active := false, break_end_time_utc := none,
                           wake_event := true }, []))
    ∧ (s.pc = .inBreakLoop → s.break_active = true → s.stop_event = false →
        s.break_end_time_utc = some e → e ≤ now →
        step (.breakTick now) s
          = some ({ s with break_active := false, break_end_time_utc := none,
                           pc := .atLoopTop }, [])) := by
  refine ⟨?_, ?_, ?_, ?_⟩
  · have hb := (reachable_inv s h).1
    rw [brInv] at hb
    rw [hb]
    exact Option.isSome_iff_ne_none
  · intro ha hb2
    simp [step, toggle_step, ha, hb2]
  · intro ha hb2
    simp [step, toggle_step, ha, hb2]
  · intro hpc hba hse hsome hle
    have hfloor : Int.floor (e - now) ≤ 0 := by
      have h0 : e - now ≤ 0 := sub_nonpos.mpr hle
      calc Int.floor (e - now) ≤ Int.floor (0 : ℚ) := Int.floor_le_floor h0
        _ = 0 := Int.floor_zero
    have hrem : (max 0 (Int.floor (e - now)) : Int) ≤ 0 := max_le le_rfl hfloor
    simp [step, break_tick_step, hpc, hba, hse, hsome, hrem]

/-- Witness for `break_invariant` at a reachable on-break state whose
deadline (instant 0 + 3600) has elapsed by instant 3600: the invariant
holds there, `toggle_break` clears the break, and the elapsed-deadline
break tick clears both fields in one step. -/
theorem break_invariant_witness :
    (sInBreakLoop.break_active = true ↔ sInBreakLoop.break_end_time_utc ≠ none)
    ∧ step (.toggleBreak 3600) sInBreakLoop
        = some ({ sInBreakLoop with break_active := false,
                                    break_end_time_utc := none,
                                    wake_event := true }, [])
    ∧ step (.breakTick 3600) sInBreakLoop
        = some ({ sInBreakLoop with break_active := false,
                                    break_end_time_utc := none,
                                    pc := .atLoopTop }, []) :=
  have hr : Reachable sInBreakLoop :=
    reach_reachable [Action.startCall "t" 1 "", Action.toggleBreak 0, Action.loopCheck]
      (initState {}) sInBreakLoop (Reachable.init {}) rfl
  ⟨(break_invariant sInBreakLoop hr 3600 (0 + 3600)).1,
   (break_invariant sInBreakLoop hr 3600 (0 + 3600)).2.2.1 rfl rfl,
   (break_invariant sInBreakLoop hr 3600 (0 + 3600)).2.2.2 rfl rfl rfl rfl (by norm_num)⟩

/-- C5: at most one worker thread exists at any time, and a `start` call
while the worker is alive spawns nothing: it only updates the planned task,
interval, profession and observer callback in place, persists exactly that
configuration, and sets the wake signal, leaving the worker (its program
counter and the live-thread count) unchanged. -/
theorem start_no_second_worker (s : FocusTracker) (h : Reachable s)
    (t p0 : String) (i : Int) :
    s.liveThreads ≤ 1
    ∧ (threadAlive s = true →
        step (.startCall t i p0) s
          = some ({ s with planned_task := pyStrip t, interval_minutes := max 1 i,
                           profession := pyStrip p0, cb_set := true,
                           wake_event := true },
                  [Ev.saveCfg { planned_task := pyStrip t,
                                interval_minutes := max 1 i,
                                image_width := s.config.image_width,
                                api_key_env := s.config.api_key_env,
                                profession := pyStrip p0 }])) := by
  constructor
  · have hl := (reachable_inv s h).2
    rw [liveInv] at hl
    rw [hl]
    split <;> omega
  · intro ha
    simp [step, start_step, ha, cfgOf]

/-- Witness for `start_no_second_worker`: a second `start` on a running
tracker only hot-updates the configuration. -/
theorem start_no_second_worker_witness :
    sStarted.liveThreads ≤ 1
    ∧ step (.startCall "u" 3 "p") sStarted
        = some ({ sStarted with planned_task := pyStrip "u",
                                interval_minutes := max 1 3,
                                profession := pyStrip "p", cb_set := true,
                                wake_event := true },
                [Ev.saveCfg { planned_task := pyStrip "u",
                              interval_minutes := max 1 3,
                              image_width := sStarted.config.image_width,
                              api_key_env := sStarted.config.api_key_env,
                              profession := pyStrip "p" }]) :=
  have hr : Reachable sStarted :=
    reach_reachable [Action.startCall "t" 1 ""]
      (initState {}) sStarted (Reachable.init {}) rfl
  ⟨(start_no_second_worker sStarted hr "u" "p" 3).1,
   (start_no_second_worker sStarted hr "u" "p" 3).2 rfl⟩

/-- No `_emit_ui` call site logs: the snapshot part of a step's events
contains no log line. -/
theorem logsOf_uiEv (s : FocusTracker) (w : Bool) (pay : UiPayload) :
    logsOf (uiEv s w pay) = [] := by
  unfold uiEv
  split
  · cases w <;> simp [logsOf]
  · simp [logsOf]

/-- A leading log event contributes its line to `logsOf`. -/
theorem logsOf_cons_log (l : String) (evs : List Ev) :
    logsOf (Ev.log l :: evs) = l :: logsOf evs := rfl

/-- C1 is refuted as stated: `analyze_screenshot` returns a Failure (no
parsed verdict) that carries the response's reported token usage when
`output_parsed` is `None` on a successful call (`analyze.py` line 84), and
`_run_loop` adds the result's counts to the totals before branching on the
failure (`tracker.py` lines 206-208) — so this failure cycle, run from a
reachable capturing state with zero totals, leaves non-zero totals and a
changed cost. -/
theorem failure_zero_tokens_counterexample :
    reach (initState {}) [Action.startCall "t" 1 "", Action.loopCheck] = some sCapturing
    ∧ (analyze_screenshot (.response none (some 5) (some 3))).parsed = none
    ∧ (analyze_screenshot (.response none (some 5) (some 3))).input_tokens = 5
    ∧ (analyze_screenshot (.response none (some 5) (some 3))).output_tokens = 3
    ∧ step (.captureOk (analyze_screenshot (.response none (some 5) (some 3))) 0) sCapturing
        = some (capture_ok_step (analyze_screenshot (.response none (some 5) (some 3))) 0
                  sCapturing)
    ∧ sCapturing.input_tokens_total = 0
    ∧ sCapturing.output_tokens_total = 0
    ∧ sCapturing.cost_usd = 0
    ∧ (capture_ok_step (analyze_screenshot (.response none (some 5) (some 3))) 0
        sCapturing).1.input_tokens_total = 5
    ∧ (capture_ok_step (analyze_screenshot (.response none (some 5) (some 3))) 0
        sCapturing).1.output_tokens_total = 3
    ∧ (capture_ok_step (analyze_screenshot (.response none (some 5) (some 3))) 0
        sCapturing).1.cost_usd ≠ 0 := by
  refine ⟨rfl, rfl, rfl, rfl, rfl, rfl, rfl, rfl, rfl, rfl, ?_⟩
  show compute_cost 5 3 ≠ 0
  norm_num [compute_cost]

/-- C1 (amended): a failure cycle accumulates exactly the token counts its
`AnalysisResult` carries and recomputes the cost from the new totals; the
exception paths of `analyze_screenshot` carry zero tokens, so cycles for
those failures leave the totals and the cost unchanged, while a null-parse
failure on a successful response carries the response's reported usage,
which the tracker adds. -/
theorem failure_token_accumulation (s : FocusTracker) (r : AnalysisResult)
    (now : ℚ) (m : String) (p : FocusTracker × List Ev)
    (hpc : s.pc = .capturing) (hfail : r.parsed = none)
    (hc : s.cost_usd = compute_cost s.input_tokens_total s.output_tokens_total)
    (hstep : step (.captureOk r now) s = some p) :
    p.1.input_tokens_total = s.input_tokens_total + r.input_tokens
    ∧ p.1.output_tokens_total = s.output_tokens_total + r.output_tokens
    ∧ p.1.cost_usd = compute_cost p.1.input_tokens_total p.1.output_tokens_total
    ∧ (analyze_screenshot (.validationError m)).input_tokens = 0
    ∧ (analyze_screenshot (.validationError m)).output_tokens = 0
    ∧ (analyze_screenshot (.otherError m)).input_tokens = 0
    ∧ (analyze_screenshot (.otherError m)).output_tokens = 0
    ∧ (r.input_tokens = 0 → r.output_tokens = 0 →
        p.1.input_tokens_total = s.input_tokens_total
        ∧ p.1.output_tokens_total = s.output_tokens_total
        ∧ p.1.cost_usd = s.cost_usd) := by
  simp only [step, hpc, if_pos rfl] at hstep
  injection hstep with h1
  subst h1
  obtain ⟨rp, ri, ro, re⟩ := r
  have hq : rp = none := hfail
  subst hq
  refine ⟨rfl, rfl, rfl, rfl, rfl, rfl, rfl, ?_⟩
  intro h0 h1
  have h0q : ri = 0 := h0
  have h1q : ro = 0 := h1
  subst h0q; subst h1q
  refine ⟨?_, ?_, ?_⟩
  · show s.input_tokens_total + 0 = s.input_tokens_total
    exact Nat.add_zero _
  · show s.output_tokens_total + 0 = s.output_tokens_total
    exact Nat.add_zero _
  · show compute_cost (s.input_tokens_total + 0) (s.output_tokens_total + 0) = s.cost_usd
    rw [Nat.add_zero, Nat.add_zero]
    exact hc.symm

/-- Witness for `failure_token_accumulation`: an exception-produced Failure
(`otherError`) at a reachable capturing state leaves totals and cost
unchanged. -/
theorem failure_token_accumulation_witness :
    (capture_ok_step (analyze_screenshot (.otherError "boom")) 0 sCapturing).1.input_tokens_total
        = sCapturing.input_tokens_total + (analyze_screenshot (.otherError "boom")).input_tokens
    ∧ (capture_ok_step (analyze_screenshot (.otherError "boom")) 0
          sCapturing).1.output_tokens_total
        = sCapturing.output_tokens_total + (analyze_screenshot (.otherError "boom")).output_tokens
    ∧ (capture_ok_step (analyze_screenshot (.otherError "boom")) 0 sCapturing).1.cost_usd
        = compute_cost
            (capture_ok_step (analyze_screenshot (.otherError "boom")) 0
              sCapturing).1.input_tokens_total
            (capture_ok_step (analyze_screenshot (.otherError "boom")) 0
              sCapturing).1.output_tokens_total
    ∧ (analyze_screenshot (.validationError "bad")).input_tokens = 0
    ∧ (analyze_screenshot (.validationError "bad")).output_tokens = 0
    ∧ (analyze_screenshot (.otherError "bad")).input_tokens = 0
    ∧ (analyze_screenshot (.otherError "bad")).output_tokens = 0
    ∧ ((analyze_screenshot (.otherError "boom")).input_tokens = 0 →
        (analyze_screenshot (.otherError "boom")).output_tokens = 0 →
        (capture_ok_step (analyze_screenshot (.otherError "boom")) 0
            sCapturing).1.input_tokens_total = sCapturing.input_tokens_total
        ∧ (capture_ok_step (analyze_screenshot (.otherError "boom")) 0
            sCapturing).1.output_tokens_total = sCapturing.output_tokens_total
        ∧ (capture_ok_step (analyze_screenshot (.otherError "boom")) 0
            sCapturing).1.cost_usd = sCapturing.cost_usd) :=
  failure_token_accumulation sCapturing (analyze_screenshot (.otherError "boom")) 0 "bad"
    (capture_ok_step (analyze_screenshot (.otherError "boom")) 0 sCapturing)
    rfl rfl (by show (0 : ℚ) = compute_cost 0 0; norm_num [compute_cost]) rfl

/-- Worker steps are disabled once the worker has exited: no worker action
applies at program counter `exited`, so nothing is emitted by the worker. -/
theorem worker_disabled_at_exited (a : Action) (s : FocusTracker)
    (hpc : s.pc = .exited) (hw : isWorkerAction a = true) : step a s = none := by
  cases a <;> simp_all [isWorkerAction, step]

/-- The stop signal is sticky: every step other than a `start` call
preserves a set stop event. -/
theorem stop_sticky (a : Action) (s : FocusTracker) (p : FocusTracker × List Ev)
    (hstep : step a s = some p) (hse : s.stop_event = true)
    (hns : isStartCall a = false) : p.1.stop_event = true := by
  cases a
  case startCall t i pr => simp [isStartCall] at hns
  case updateTask t i pr =>
    rcases t with _ | t0 <;> rcases i with _ | (_ | i0) <;> rcases pr with _ | p0 <;>
      (simp only [step, update_step] at hstep; injection hstep with h1; subst h1; exact hse)
  all_goals
    simp only [step, stop_begin_step, stop_end_step, toggle_step, loop_check_step,
               break_tick_step, capture_raise_step, capture_ok_step] at hstep
  all_goals repeat' split at hstep
  all_goals
    first
      | exact Option.noConfusion hstep
      | (injection hstep with h1; subst h1; first | rfl | exact hse)

/-- `start` with no live worker spawns exactly one fresh worker thread with
cleared signals. -/
theorem start_spawns_fresh (s : FocusTracker) (t prof : String) (i : Int)
    (ha : threadAlive s = false) (p : FocusTracker × List Ev)
    (hstep : step (.startCall t i prof) s = some p) :
    p.1.pc = .atLoopTop ∧ p.1.stop_event = false ∧ p.1.wake_event = false
    ∧ p.1.liveThreads = s.liveThreads + 1 ∧ Ev.spawn ∈ p.2 := by
  simp only [step, start_step, ha, Bool.false_eq_true, if_false] at hstep
  injection hstep with h1
  subst h1
  refine ⟨rfl, rfl, rfl, rfl, ?_⟩
  simp

/-- C6 (amended): `stop()` sets the sticky stop signal and joins the
worker with a 2-second bound.  A worker not blocked inside capture/analyze
observes the signal and exits, and at program counter `exited` no worker
step is enabled — no further worker snapshot is emitted; the stop signal
stays set across every action except the next `start`; and a `start` when
no worker thread is alive spawns exactly one fresh worker with fresh
signals.  A worker blocked in capture/analyze, however, can outlive the
bounded join and emit one more cycle's snapshots after `stop()` returns
(spec §5's documented limitation; see the counterexample). -/
theorem stop_semantics (a : Action) (s : FocusTracker) (t prof : String) (i : Int) :
    (s.pc = .exited → isWorkerAction a = true → step a s = none)
    ∧ (∀ p, step a s = some p → s.stop_event = true → isStartCall a = false →
        p.1.stop_event = true)
    ∧ (threadAlive s = false → ∀ p, step (.startCall t i prof) s = some p →
        p.1.pc = .atLoopTop ∧ p.1.stop_event = false ∧ p.1.wake_event = false
        ∧ p.1.liveThreads = s.liveThreads + 1 ∧ Ev.spawn ∈ p.2) :=
  ⟨fun hpc hw => worker_disabled_at_exited a s hpc hw,
   fun p hstep hse hns => stop_sticky a s p hstep hse hns,
   fun ha p hstep => start_spawns_fresh s t prof i ha p hstep⟩

/-- C6 is refuted as stated: started tracker, worker blocked in
capture/analyze, `stop()` signals and returns through the timed-out
`join(timeout=2.0)` — the worker is abandoned alive with the stop signal
set — and the worker then finishes its cycle and emits a further snapshot
after `stop()` has returned. -/
theorem stop_clean_counterexample :
    reach (initState {})
        [Action.startCall "t" 1 "", Action.loopCheck, Action.stopBegin, Action.stopEnd]
      = some sCapStop
    ∧ sCapStop.stop_event = true
    ∧ threadAlive sCapStop = true
    ∧ step (.captureOk ⟨some ⟨true, "ok"⟩, 5, 3, none⟩ 0) sCapStop
        = some (capture_ok_step ⟨some ⟨true, "ok"⟩, 5, 3, none⟩ 0 sCapStop)
    ∧ hasEmitW (capture_ok_step ⟨some ⟨true, "ok"⟩, 5, 3, none⟩ 0 sCapStop).2 = true :=
  ⟨rfl, rfl, rfl, rfl, rfl⟩

/-- C9: a completed cycle — parsed verdict or API/parse failure, but not a
capture/analysis exception — appends exactly one log line, built from the
UTC timestamp, the planned task, the verdict (`str(bool)`; `?` for
unknown), the reason text and the cumulative cost formatted to 4 decimal
places; a capture/analysis exception appends none; and `_append_log`
returns normally for every input, leaving the log unchanged when directory
creation or the write fails. -/
theorem cycle_logging (s : FocusTracker) (r : AnalysisResult) (fc : FocusCheck)
    (now : ℚ) (msg reason line : String) (log : List String)
    (hpc : s.pc = .capturing) :
    step (.captureOk r now) s = some (capture_ok_step r now s)
    ∧ (r.parsed = some fc →
        logsOf (capture_ok_step r now s).2
          = [log_line (isoFmt now) s.planned_task (pyStr fc.on_task) fc.reason
              (compute_cost (s.input_tokens_total + r.input_tokens)
                (s.output_tokens_total + r.output_tokens))])
    ∧ (r.parsed = none → r.error_message = some reason → reason ≠ "" →
        logsOf (capture_ok_step r now s).2
          = [log_line (isoFmt now) s.planned_task "?" reason
              (compute_cost (s.input_tokens_total + r.input_tokens)
                (s.output_tokens_total + r.output_tokens))])
    ∧ step (.captureRaise msg) s = some (capture_raise_step msg s)
    ∧ logsOf (capture_raise_step msg s).2 = []
    ∧ append_log .ok log line = log ++ [line]
    ∧ append_log .mkdirFails log line = log
    ∧ append_log .writeFails log line = log := by
  refine ⟨by simp [step, hpc], ?_, ?_, by simp [step, hpc], ?_, rfl, rfl, rfl⟩
  · intro hsome
    obtain ⟨rp, ri, ro, re⟩ := r
    have hq : rp = some fc := hsome
    subst hq
    simp [capture_ok_step, logsOf_cons_log, logsOf_uiEv]
  · intro hnone hre hne
    obtain ⟨rp, ri, ro, re⟩ := r
    have hq : rp = none := hnone
    subst hq
    have hq2 : re = some reason := hre
    subst hq2
    simp [capture_ok_step, logsOf_cons_log, logsOf_uiEv, hne]
  · simp [capture_raise_step, logsOf_uiEv]

/-- Witness for `cycle_logging` at a reachable capturing state with a
concrete verdict result and a concrete parse-failure reason. -/
theorem cycle_logging_witness :
    step (.captureOk ⟨some ⟨false, "social media"⟩, 7, 2, none⟩ 0) sCapturing
        = some (capture_ok_step ⟨some ⟨false, "social media"⟩, 7, 2, none⟩ 0 sCapturing)
    ∧ ((⟨some ⟨false, "social media"⟩, 7, 2, none⟩ : AnalysisResult).parsed
          = some ⟨false, "social media"⟩ →
        logsOf (capture_ok_step (⟨some ⟨false, "social media"⟩, 7, 2, none⟩ : AnalysisResult)
            0 sCapturing).2
          = [log_line (isoFmt 0) sCapturing.planned_task (pyStr false) "social media"
              (compute_cost (sCapturing.input_tokens_total + 7)
                (sCapturing.output_tokens_total + 2))])
    ∧ ((⟨some ⟨false, "social media"⟩, 7, 2, none⟩ : AnalysisResult).parsed = none →
        (⟨some ⟨false, "social media"⟩, 7, 2, none⟩ : AnalysisResult).error_message
          = some "bad json" → "bad json" ≠ "" →
        logsOf (capture_ok_step (⟨some ⟨false, "social media"⟩, 7, 2, none⟩ : AnalysisResult)
            0 sCapturing).2
          = [log_line (isoFmt 0) sCapturing.planned_task "?" "bad json"
              (compute_cost (sCapturing.input_tokens_total + 7)
                (sCapturing.output_tokens_total + 2))])
    ∧ step (.captureRaise "screen capture failed") sCapturing
        = some (capture_raise_step "screen capture failed" sCapturing)
    ∧ logsOf (capture_raise_step "screen capture failed" sCapturing).2 = []
    ∧ append_log .ok ["old"] "new" = ["old"] ++ ["new"]
    ∧ append_log .mkdirFails ["old"] "new" = ["old"]
    ∧ append_log .writeFails ["old"] "new" = ["old"] :=
  cycle_logging sCapturing ⟨some ⟨false, "social media"⟩, 7, 2, none⟩
    ⟨false, "social media"⟩ 0 "screen capture failed" "bad json" "new" ["old"] rfl

end WorkLens
